import Mathlib

/-!
Verification of the inspection-report service (`src/server.py`).

The service is a single-table CRUD application over SQLite.  This file gives a
shallow embedding of its storage layer (`init_db`, `insert_report`,
`query_reports`, `stats`) and of the two HTTP handler branches the claims
depend on (`GET /api/reports` query-string handling and `POST /api/reports`
body handling), together with theorems settling the specification claims.

Modelling conventions:
* a table is a `List Report`; rows keep insertion order;
* SQL `NULL` is `Option.none`; the 13 `TEXT` columns are `Option String`,
  `createdAt` (`INTEGER`) is `Option Int`;
* SQLite's `LIKE` is modelled including its default ASCII case folding and
  its `%` / `_` wildcards (`sqliteLike`);
* SQLite's `TRIM` removes only space characters (`sqlTrim`), while Python's
  `str.strip()` (applied to filter values) is modelled by `pyStrip`;
* `ORDER BY createdAt DESC` is modelled by a sort with respect to `rowOrder`
  (`NULL` sorts last in descending order, as in SQLite); the order of rows
  with equal keys is unspecified by SQLite, and the embedding fixes one;
* a failed `INSERT` raises in Python and the transaction leaves the table
  unchanged, so `insert_report` returns `Except SqlError (List Report)` and
  the caller's table value is untouched in the `error` case;
* `urllib.parse.parse_qs` with default arguments is modelled by `qsPairs`:
  pairs are split on `&`, a name is separated from its value at the first
  `=`, segments without `=` and pairs with an empty value are dropped.
  Percent-decoding and `+`-decoding are not modelled: query strings are
  assumed free of percent escapes and `+` signs.
-/

/-- ASCII upper-to-lower case folding, as applied by SQLite's default `LIKE`. -/
def asciiLower (c : Char) : Char :=
  if 'A' ≤ c ∧ c ≤ 'Z' then Char.ofNat (c.toNat + 32) else c

/-- SQLite `LIKE` pattern matching (default behaviour, no `ESCAPE`): `%`
matches any sequence of characters, `_` matches exactly one character, and
ordinary characters match up to ASCII case folding. -/
def sqliteLike : List Char → List Char → Bool
  | [], s => s.isEmpty
  | p :: ps, s =>
    if p = '%' then s.tails.any fun t => sqliteLike ps t
    else
      match s with
      | [] => false
      | c :: cs => (if p = '_' then true else asciiLower p == asciiLower c) && sqliteLike ps cs

/-- `listContains v s`: the character list `v` occurs contiguously inside `s`. -/
def listContains (v s : List Char) : Bool :=
  s.tails.any fun t => v.isPrefixOf t

/-- `occursIn v s`: the string `v` occurs as a (contiguous) substring of `s`. -/
def occursIn (v s : String) : Bool :=
  listContains v.toList s.toList

/-- ASCII-lowercase every character of a string. -/
def lowerStr (s : String) : String :=
  String.mk (s.toList.map asciiLower)

/-- `wildFree v`: `v` contains neither of the `LIKE` wildcards `%` and `_`. -/
def wildFree (v : List Char) : Bool :=
  v.all fun c => !(c = '%' || c = '_')

/-- Python `str.strip()` with no argument, as applied to filter values:
remove leading and trailing whitespace.  (Python also strips a few rarer
code points, such as vertical tab; the embedding covers space, tab, carriage
return and newline, which suffices for the behaviour under study.) -/
def pyStrip (s : String) : String :=
  String.mk (((s.toList.dropWhile Char.isWhitespace).reverse.dropWhile Char.isWhitespace).reverse)

/-- One row of the `reports` table (the 14 columns of `SCHEMA` in
`src/server.py`); every column is nullable, `id` is the (nullable, as SQLite
permits) `TEXT PRIMARY KEY`.  A JSON `POST` payload is represented the same
way: `payload.get(k)` yields `None` exactly when the field is absent, so an
absent field is `none`. -/
structure Report where
  id : Option String := none
  user : Option String := none
  inspectionDate : Option String := none
  manufactureName : Option String := none
  address : Option String := none
  country : Option String := none
  city : Option String := none
  pincode : Option String := none
  tacId : Option String := none
  plantInspectionReportNumber : Option String := none
  testReportNumber : Option String := none
  packModel : Option String := none
  remark : Option String := none
  createdAt : Option Int := none
deriving DecidableEq

/-- The payload obtained from an empty JSON object `{}`: all fields absent. -/
def emptyReport : Report := {}

/-- Storage-level errors surfaced to the handler (uncaught in Python). -/
inductive SqlError where
  | uniqueViolation
deriving DecidableEq

/-- `insert_report` of `src/server.py`: insert one row; the `PRIMARY KEY`
constraint on `id` rejects a duplicate non-`NULL` `id` (SQLite allows any
number of `NULL`s in a nullable `TEXT PRIMARY KEY`).  On failure the
transaction changes nothing, so no table is returned. -/
def insert_report (table : List Report) (payload : Report) : Except SqlError (List Report) :=
  match payload.id with
  | none => .ok (table ++ [payload])
  | some v =>
    if table.any fun r => r.id == some v then .error .uniqueViolation
    else .ok (table ++ [payload])

/-- The filter mapping handed to `query_reports`; a key may be absent
(`none`), which the code treats like the empty string. -/
structure Filters where
  tacId : Option String := none
  plantInspectionReportNumber : Option String := none
  testReportNumber : Option String := none
  packModel : Option String := none
deriving DecidableEq

/-- `col LIKE '%' || v || '%'` against a string value. -/
def likeContains (v s : String) : Bool :=
  sqliteLike ('%' :: v.toList ++ ['%']) s.toList

/-- The per-key condition built by `add_like` in `query_reports`:
`v = (filters.get(key) or "").strip()`; a blank `v` adds no condition,
otherwise the row must satisfy `col LIKE '%v%'` (a `NULL` column fails). -/
def filterCond (fv : Option String) (col : Option String) : Bool :=
  let v := pyStrip (fv.getD "")
  if v = "" then true
  else
    match col with
    | none => false
    | some s => likeContains v s

/-- The conjunction of the four `LIKE` conditions of `query_reports`
(`WHERE ... AND ...`). -/
def matchesRow (f : Filters) (r : Report) : Bool :=
  filterCond f.tacId r.tacId &&
  filterCond f.plantInspectionReportNumber r.plantInspectionReportNumber &&
  filterCond f.testReportNumber r.testReportNumber &&
  filterCond f.packModel r.packModel

/-- SQLite ordering on the `createdAt` column for `ORDER BY createdAt DESC`:
`caLE a b` holds when a row with `createdAt = a` may precede one with
`createdAt = b` (`a ≥ b`, with `NULL` as the smallest value, hence last). -/
def caLE : Option Int → Option Int → Bool
  | _, none => true
  | none, some _ => false
  | some a, some b => b ≤ a

/-- Row precedence realising `ORDER BY createdAt DESC`. -/
def rowOrder (a b : Report) : Prop :=
  caLE a.createdAt b.createdAt = true

instance : DecidableRel rowOrder := fun a b => by
  unfold rowOrder; infer_instance

/-- `query_reports` of `src/server.py`: `SELECT * FROM reports` with the
accumulated `LIKE` conditions and `ORDER BY createdAt DESC`. -/
def query_reports (f : Filters) (table : List Report) : List Report :=
  List.insertionSort rowOrder (table.filter (matchesRow f))

/-- An empty filter mapping (no keys present). -/
def noFilters : Filters := {}

/-- SQLite `TRIM`: removes space characters (only `' '`) from both ends. -/
def sqlTrim (s : String) : String :=
  String.mk (((s.toList.dropWhile fun c => c = ' ').reverse.dropWhile fun c => c = ' ').reverse)

/-- The record returned by `stats` in `src/server.py`. -/
structure StatsResult where
  tacIssued : Nat
  testReportIssued : Nat
deriving DecidableEq

/-- `stats` of `src/server.py`:
`COUNT(DISTINCT tacId) ... WHERE tacId IS NOT NULL AND TRIM(tacId) <> ''` and
`COUNT(*) ... WHERE testReportNumber IS NOT NULL AND TRIM(testReportNumber) <> ''`. -/
def stats (table : List Report) : StatsResult where
  tacIssued := (((table.filterMap Report.tacId).filter fun v => !(sqlTrim v == "")).dedup).length
  testReportIssued :=
    (table.filter fun r =>
      match r.testReportNumber with
      | none => false
      | some v => !(sqlTrim v == "")).length

/-- `init_db` of `src/server.py`: `CREATE TABLE IF NOT EXISTS` on the store.
`none` is a store without the `reports` table; `some t` is a store whose
table holds the rows `t`. -/
def init_db : Option (List Report) → Option (List Report)
  | none => some []
  | some t => some t

/-- `urllib.parse.parse_qs` with default arguments, restricted to query
strings without percent escapes or `+`: split on `&`, split each segment at
the first `=`, drop segments without `=` and pairs whose value is empty
(`keep_blank_values` defaults to `False`).  `splitAmp` is Python
`q.split('&')` on character lists. -/
def splitAmp : List Char → List (List Char)
  | [] => [[]]
  | c :: cs =>
    let r := splitAmp cs
    if c = '&' then [] :: r
    else
      match r with
      | [] => [[c]]
      | h :: t => (c :: h) :: t

/-- Split a query-string segment at its first `=` (Python `seg.split('=', 1)`);
`none` when the segment has no `=`. -/
def splitEq : List Char → Option (List Char × List Char)
  | [] => none
  | c :: cs =>
    if c = '=' then some ([], cs)
    else
      match splitEq cs with
      | none => none
      | some (n, v) => some (c :: n, v)

def qsPairs (q : String) : List (String × String) :=
  (splitAmp q.toList).filterMap fun seg =>
    match splitEq seg with
    | none => none
    | some (n, v) => if v = [] then none else some (String.mk n, String.mk v)

/-- `qs.get(k, [""])[0] or ""` in `Handler.do_GET`: the first value of key
`k` that `parse_qs` kept (the first occurrence with a non-empty value), or
`""` when there is none. -/
def qsFirst (q k : String) : String :=
  match (qsPairs q).filter fun p => p.1 == k with
  | [] => ""
  | (_, v) :: _ => v

/-- The filter dictionary built by `Handler.do_GET` for `/api/reports`:
every one of the four keys is present, with its `qsFirst` value. -/
def filtersFromQS (q : String) : Filters where
  tacId := some (qsFirst q "tacId")
  plantInspectionReportNumber := some (qsFirst q "plantInspectionReportNumber")
  testReportNumber := some (qsFirst q "testReportNumber")
  packModel := some (qsFirst q "packModel")

/-- The `GET /api/reports` branch of `Handler.do_GET`: parse the query
string into filters, query, and answer `200` with the resulting items. -/
def handleReportsGET (rawQuery : String) (table : List Report) : Nat × List Report :=
  (200, query_reports (filtersFromQS rawQuery) table)

/-- The `POST /api/reports` branch of `Handler.do_POST`: a request whose
`Content-Length` is `0` (or absent, which `int(headers.get(...,"0"))` also
turns into `0`) has its body replaced by `{}`; the parsed body is inserted
and on success the response is `201` with `{"ok": true}` (modelled by the
`Bool` `true`).  A storage error propagates uncaught. -/
def handleReportsPOST (contentLength : Nat) (body : Report) (table : List Report) :
    Except SqlError (Nat × Bool × List Report) :=
  let payload := if contentLength = 0 then emptyReport else body
  match insert_report table payload with
  | .error e => .error e
  | .ok t' => .ok (201, true, t')

/-! ### Claim-side definitions

The following definitions follow the wording of the specification claims
(rather than the source) and exist to be compared with the embedded code:
`specFilterCond`/`specMatchesRow` are the claimed plain-substring filter
semantics, `ciFilterCond`/`ciMatchesRow` the case-insensitive amendment, and
`rawPairs`/`rawFirst` the claimed "first occurrence in the query string"
reading. -/

/-- Claim-side per-key filter condition: the trimmed filter value must occur
as a substring of the column (a blank value imposes no condition). -/
def specFilterCond (fv : Option String) (col : Option String) : Bool :=
  let v := pyStrip (fv.getD "")
  if v = "" then true
  else
    match col with
    | none => false
    | some s => occursIn v s

/-- Claim-side row predicate: the four substring conditions, conjoined. -/
def specMatchesRow (f : Filters) (r : Report) : Bool :=
  specFilterCond f.tacId r.tacId &&
  specFilterCond f.plantInspectionReportNumber r.plantInspectionReportNumber &&
  specFilterCond f.testReportNumber r.testReportNumber &&
  specFilterCond f.packModel r.packModel

/-- Per-key filter condition of the amended claim: substring occurrence up
to ASCII case folding. -/
def ciFilterCond (fv : Option String) (col : Option String) : Bool :=
  let v := pyStrip (fv.getD "")
  if v = "" then true
  else
    match col with
    | none => false
    | some s => occursIn (lowerStr v) (lowerStr s)

/-- Row predicate of the amended claim: the four case-insensitive substring
conditions, conjoined. -/
def ciMatchesRow (f : Filters) (r : Report) : Bool :=
  ciFilterCond f.tacId r.tacId &&
  ciFilterCond f.plantInspectionReportNumber r.plantInspectionReportNumber &&
  ciFilterCond f.testReportNumber r.testReportNumber &&
  ciFilterCond f.packModel r.packModel

/-- The stripped value of a filter key is free of `LIKE` wildcards. -/
def wfOpt (o : Option String) : Bool :=
  wildFree (pyStrip (o.getD "")).toList

/-- All four filter values are free of `LIKE` wildcards. -/
def wildFreeFilters (f : Filters) : Bool :=
  wfOpt f.tacId && wfOpt f.plantInspectionReportNumber && wfOpt f.testReportNumber && wfOpt f.packModel

/-- Claim-side reading of the query string: every `name=value` pair, in
order, including pairs whose value is blank. -/
def rawPairs (q : String) : List (String × String) :=
  (splitAmp q.toList).filterMap fun seg =>
    match splitEq seg with
    | none => none
    | some (n, v) => some (String.mk n, String.mk v)

/-- Claim-side "value of the first occurrence of key `k`", with an absent
key read as the empty string. -/
def rawFirst (q k : String) : String :=
  match (rawPairs q).filter fun p => p.1 == k with
  | [] => ""
  | (_, v) :: _ => v

/-! ### Helper lemmas -/

theorem caLE_total (a b : Option Int) : caLE a b = true ∨ caLE b a = true := by
  cases a <;> cases b <;> simp [caLE]
  omega

theorem caLE_trans {a b c : Option Int} (h1 : caLE a b = true) (h2 : caLE b c = true) :
    caLE a c = true := by
  cases a <;> cases b <;> cases c <;> simp_all [caLE]
  omega

instance : IsTotal Report rowOrder :=
  ⟨fun a b => caLE_total a.createdAt b.createdAt⟩

instance : IsTrans Report rowOrder :=
  ⟨fun _ _ _ h1 h2 => caLE_trans h1 h2⟩

theorem mem_query {f : Filters} {t : List Report} {r : Report} :
    r ∈ query_reports f t ↔ r ∈ t ∧ matchesRow f r = true := by
  unfold query_reports
  rw [List.mem_insertionSort, List.mem_filter]

theorem query_perm (f : Filters) (t : List Report) :
    (query_reports f t).Perm (t.filter (matchesRow f)) :=
  List.perm_insertionSort _ _

theorem query_sorted (f : Filters) (t : List Report) :
    (query_reports f t).Pairwise rowOrder :=
  List.sorted_insertionSort rowOrder _

theorem matchesRow_noFilters (r : Report) : matchesRow noFilters r = true := rfl

theorem query_noFilters_perm (t : List Report) :
    (query_reports noFilters t).Perm t := by
  have h := query_perm noFilters t
  rwa [List.filter_eq_self.mpr fun a _ => matchesRow_noFilters a] at h

theorem insert_ok_eq {t : List Report} {p : Report} {t' : List Report}
    (h : insert_report t p = .ok t') : t' = t ++ [p] := by
  unfold insert_report at h
  split at h
  · injection h with h; exact h.symm
  · split at h
    · exact absurd h (by simp)
    · injection h with h; exact h.symm

theorem sqliteLike_pct (ps s : List Char) :
    sqliteLike ('%' :: ps) s = s.tails.any fun t => sqliteLike ps t := by
  simp [sqliteLike]

theorem sqliteLike_pct_only (s : List Char) : sqliteLike ['%'] s = true := by
  rw [sqliteLike_pct]
  exact List.any_eq_true.mpr ⟨[], (List.mem_tails _ _).mpr List.nil_suffix, rfl⟩

theorem sqliteLike_lit_pct {v : List Char} (hv : wildFree v = true) (s : List Char) :
    sqliteLike (v ++ ['%']) s = (v.map asciiLower).isPrefixOf (s.map asciiLower) := by
  induction v generalizing s with
  | nil => simp [sqliteLike_pct_only]
  | cons c cs ih =>
    simp only [wildFree, List.all_cons, Bool.and_eq_true, Bool.not_eq_true',
      Bool.or_eq_false_iff, decide_eq_false_iff_not] at hv
    obtain ⟨⟨hc1, hc2⟩, hcs⟩ := hv
    have hcs' : wildFree cs = true := hcs
    cases s with
    | nil => simp [sqliteLike, hc1]
    | cons d ds =>
      simp [sqliteLike, hc1, hc2, List.isPrefixOf, ih hcs']

theorem likeContains_eq_ci {v s : String} (hv : wildFree v.toList = true) :
    likeContains v s = occursIn (lowerStr v) (lowerStr s) := by
  unfold likeContains occursIn lowerStr listContains
  rw [show ('%' :: v.toList ++ ['%']) = '%' :: (v.toList ++ ['%']) from rfl, sqliteLike_pct]
  show _ = (s.toList.map asciiLower).tails.any fun t => (v.toList.map asciiLower).isPrefixOf t
  rw [List.map_tails, List.any_map]
  simp only [Function.comp_def, sqliteLike_lit_pct hv]

theorem filterCond_eq_ci {fv col : Option String} (h : wfOpt fv = true) :
    filterCond fv col = ciFilterCond fv col := by
  unfold wfOpt at h
  unfold filterCond ciFilterCond
  by_cases hv : pyStrip (fv.getD "") = ""
  · simp [hv]
  · simp only [hv, if_neg hv]
    cases col with
    | none => rfl
    | some s => exact likeContains_eq_ci h

theorem matchesRow_eq_ci {f : Filters} (h : wildFreeFilters f = true) (r : Report) :
    matchesRow f r = ciMatchesRow f r := by
  unfold wildFreeFilters at h
  simp only [Bool.and_eq_true] at h
  obtain ⟨⟨⟨h1, h2⟩, h3⟩, h4⟩ := h
  unfold matchesRow ciMatchesRow
  rw [filterCond_eq_ci h1, filterCond_eq_ci h2, filterCond_eq_ci h3, filterCond_eq_ci h4]

/-! ### Claims -/

/-- C2: `stats()` returns `{tacIssued, testReportIssued}` where `tacIssued`
is the number of distinct `tacId` values among rows whose `tacId` is
non-null and non-blank after trimming, and `testReportIssued` is the number
of rows whose `testReportNumber` is non-null and non-blank after trimming;
both counts are `0` on the empty table.  The spec's two example tables are
checked as well. -/
theorem c2_stats_correct :
    (∀ t : List Report,
      (stats t).tacIssued =
        ((t.filterMap Report.tacId).filter fun v => !(sqlTrim v == "")).toFinset.card ∧
      (stats t).testReportIssued =
        t.countP fun r =>
          match r.testReportNumber with
          | none => false
          | some v => !(sqlTrim v == "")) ∧
    stats [] = ⟨0, 0⟩ ∧
    (stats [{ tacId := some "A" }, { tacId := some "A" }, { tacId := some "" }, {}]).tacIssued = 1 ∧
    (stats [{ testReportNumber := some "T1" }, { testReportNumber := some "" }, {}]).testReportIssued = 1 := by
  refine ⟨fun t => ⟨?_, ?_⟩, rfl, by decide, by decide⟩
  · rw [List.card_toFinset]; rfl
  · rw [List.countP_eq_length_filter]; rfl

/-- C3: the result of `query` is always ordered by `createdAt` descending
(`rowOrder`); in particular, inserting three rows with `createdAt` 10, 30,
20 in that insertion order and querying with no filters returns them in the
order 30, 20, 10. -/
theorem c3_ordering :
    (∀ (f : Filters) (t : List Report), (query_reports f t).Pairwise rowOrder) ∧
    insert_report [] ({ createdAt := some 10 } : Report) = .ok [{ createdAt := some 10 }] ∧
    insert_report [{ createdAt := some 10 }] ({ createdAt := some 30 } : Report) =
      .ok [{ createdAt := some 10 }, { createdAt := some 30 }] ∧
    insert_report [{ createdAt := some 10 }, { createdAt := some 30 }]
        ({ createdAt := some 20 } : Report) =
      .ok [{ createdAt := some 10 }, { createdAt := some 30 }, { createdAt := some 20 }] ∧
    query_reports noFilters
        [{ createdAt := some 10 }, { createdAt := some 30 }, { createdAt := some 20 }] =
      [{ createdAt := some 30 }, { createdAt := some 20 }, { createdAt := some 10 }] :=
  ⟨fun f t => query_sorted f t, rfl, rfl, rfl, by decide⟩

/-- C4: a second insert whose payload carries the `id` of a stored row fails
with a uniqueness-constraint violation; the table is unchanged (a failed
insert yields no new table in this embedding) and the first row remains
queryable. -/
theorem c4_duplicate_id (t : List Report) (p r : Report) (v : String)
    (hp : p.id = some v) (hr : r ∈ t) (hid : r.id = some v) :
    insert_report t p = .error .uniqueViolation ∧ r ∈ query_reports noFilters t := by
  have hc : (t.any fun x => x.id == some v) = true :=
    List.any_eq_true.mpr ⟨r, hr, by simp [hid]⟩
  exact ⟨by simp [insert_report, hp, hc], mem_query.mpr ⟨hr, matchesRow_noFilters r⟩⟩

/-- Witness for C4 at a concrete table and payload. -/
theorem c4_duplicate_id_witness :
    insert_report [({ id := some "R1", tacId := some "TAC-9" } : Report)]
        { id := some "R1", remark := some "second" } = .error .uniqueViolation ∧
    ({ id := some "R1", tacId := some "TAC-9" } : Report) ∈
      query_reports noFilters [({ id := some "R1", tacId := some "TAC-9" } : Report)] :=
  c4_duplicate_id _ _ _ "R1" rfl (by decide) rfl

/-- C5: after a successful `insert(payload)`, querying with no filters
returns the previous result set plus exactly one new item, the inserted
row (absent payload fields are `none` by construction of `Report`). -/
theorem c5_roundtrip (t : List Report) (p : Report) (t' : List Report)
    (h : insert_report t p = .ok t') :
    (query_reports noFilters t').Perm (p :: query_reports noFilters t) := by
  rw [insert_ok_eq h]
  refine (query_noFilters_perm (t ++ [p])).trans ?_
  exact (List.perm_append_singleton p t).trans ((query_noFilters_perm t).symm.cons p)

/-- Witness for C5: on the empty table, inserting
`id="R1", tacId="TAC-9", createdAt=100` and querying with no filters
returns exactly that one item. -/
theorem c5_roundtrip_witness :
    insert_report [] ({ id := some "R1", tacId := some "TAC-9", createdAt := some 100 } : Report) =
      .ok [{ id := some "R1", tacId := some "TAC-9", createdAt := some 100 }] ∧
    query_reports noFilters
        [({ id := some "R1", tacId := some "TAC-9", createdAt := some 100 } : Report)] =
      [{ id := some "R1", tacId := some "TAC-9", createdAt := some 100 }] ∧
    (query_reports noFilters
        [({ id := some "R1", tacId := some "TAC-9", createdAt := some 100 } : Report)]).Perm
      (({ id := some "R1", tacId := some "TAC-9", createdAt := some 100 } : Report) ::
        query_reports noFilters []) :=
  ⟨rfl, by decide, c5_roundtrip [] _ _ rfl⟩

/-- C6: storage initialisation is idempotent: a second `init_db` raises no
error and changes nothing; on an initialised store it keeps the rows, and
every query and stats result is unchanged. -/
theorem c6_init_idempotent :
    (∀ s : Option (List Report), init_db (init_db s) = init_db s) ∧
    (∀ t : List Report, init_db (some t) = some t) ∧
    (∀ (t : List Report) (f : Filters),
      (init_db (some t)).map (query_reports f) = some (query_reports f t)) ∧
    (∀ t : List Report, (init_db (some t)).map stats = some (stats t)) := by
  refine ⟨fun s => ?_, fun t => rfl, fun t f => rfl, fun t => rfl⟩
  cases s <;> rfl

/-- C7: a `POST /api/reports` whose body has zero length (`Content-Length`
0 or absent) is handled as the empty JSON object: one all-null row is
inserted (a null `id` never conflicts) and the response is `201` with
`{"ok": true}`. -/
theorem c7_empty_post (body : Report) (t : List Report) :
    handleReportsPOST 0 body t = .ok (201, true, t ++ [emptyReport]) := rfl

/-- C8: primary-key uniqueness is not enforced for null ids: an insert whose
payload has no `id` always succeeds and appends its row, so id-less inserts
accumulate null-id rows. -/
theorem c8_null_id (t : List Report) (p : Report) (h : p.id = none) :
    insert_report t p = .ok (t ++ [p]) := by
  unfold insert_report
  rw [h]

/-- Witness for C8: two successive id-less inserts both succeed and leave
two rows with `id = none`. -/
theorem c8_null_id_witness :
    insert_report [] ({} : Report) = .ok [{}] ∧
    insert_report [({} : Report)] ({ remark := some "again" } : Report) =
      .ok [({} : Report), { remark := some "again" }] :=
  ⟨c8_null_id [] {} rfl, c8_null_id [({} : Report)] { remark := some "again" } rfl⟩

/-- C10: frame property of insert: a successful `insert(payload)` leaves
all previously stored rows unchanged — for any filters, the new query
result is (up to the ordering of the sort) the old result plus the inserted
row when it matches, and nothing else. -/
theorem c10_frame (t : List Report) (p : Report) (t' : List Report) (f : Filters)
    (h : insert_report t p = .ok t') :
    (query_reports f t').Perm
      (query_reports f t ++ if matchesRow f p then [p] else []) := by
  rw [insert_ok_eq h]
  have h1 : (query_reports f (t ++ [p])).Perm
      (t.filter (matchesRow f) ++ List.filter (matchesRow f) [p]) := by
    have := query_perm f (t ++ [p])
    rwa [List.filter_append] at this
  have h2 : List.filter (matchesRow f) [p] = if matchesRow f p then [p] else [] := by
    cases hm : matchesRow f p <;> simp [List.filter, hm]
  rw [h2] at h1
  exact h1.trans (List.Perm.append_right _ (query_perm f t).symm)

/-- Witness for C10 at a concrete table, payload and filter mapping. -/
theorem c10_frame_witness :
    insert_report [({ id := some "A", tacId := some "keep" } : Report)]
        ({ id := some "B", tacId := some "new" } : Report) =
      .ok [{ id := some "A", tacId := some "keep" }, { id := some "B", tacId := some "new" }] ∧
    (query_reports noFilters
        [({ id := some "A", tacId := some "keep" } : Report),
          { id := some "B", tacId := some "new" }]).Perm
      (query_reports noFilters [({ id := some "A", tacId := some "keep" } : Report)] ++
        if matchesRow noFilters ({ id := some "B", tacId := some "new" } : Report)
        then [({ id := some "B", tacId := some "new" } : Report)] else []) :=
  ⟨rfl, c10_frame _ _ _ noFilters rfl⟩

/-- C1 as stated is false: SQLite's default `LIKE` compares ASCII letters
case-insensitively and interprets `%` in the filter value as a wildcard, so
`query` returns rows in which the trimmed filter value does not occur as a
substring of the column (`specMatchesRow` is the claim's predicate). -/
theorem c1_counterexample :
    query_reports { tacId := some "BC1" } [{ tacId := some "abc123" }] =
      [{ tacId := some "abc123" }] ∧
    specMatchesRow { tacId := some "BC1" } { tacId := some "abc123" } = false ∧
    query_reports { tacId := some "A%Z" } [{ tacId := some "A123Z" }] =
      [{ tacId := some "A123Z" }] ∧
    specMatchesRow { tacId := some "A%Z" } { tacId := some "A123Z" } = false :=
  ⟨by decide, by decide, by decide, by decide⟩

/-- C1 (amended): provided the trimmed filter values contain no `LIKE`
wildcard (`%` or `_`), `query(filters)` returns exactly the stored rows
such that, for each present and non-blank (after trimming) filter value,
the trimmed value occurs as a substring of the corresponding column under
ASCII-case-insensitive comparison; the per-key conditions are combined with
AND, and a blank or absent filter key imposes no condition. -/
theorem c1_amended (f : Filters) (t : List Report) (r : Report)
    (hw : wildFreeFilters f = true) :
    r ∈ query_reports f t ↔ r ∈ t ∧ ciMatchesRow f r = true := by
  rw [mem_query, matchesRow_eq_ci hw]

/-- Witness for C1 (amended) at a concrete filter, table and row. -/
theorem c1_amended_witness :
    wildFreeFilters { tacId := some "BC1" } = true ∧
    (({ tacId := some "abc123" } : Report) ∈
        query_reports { tacId := some "BC1" } [{ tacId := some "abc123" }] ↔
      ({ tacId := some "abc123" } : Report) ∈ [({ tacId := some "abc123" } : Report)] ∧
        ciMatchesRow { tacId := some "BC1" } { tacId := some "abc123" } = true) :=
  ⟨by decide, c1_amended _ _ _ (by decide)⟩

/-- C9 as stated is false: `parse_qs` drops pairs with a blank value, so
when the first occurrence of a known key has a blank value, a later
occurrence does affect the result.  `rawFirst` is the claim's reading of
"the first occurrence of the key" (absent key = empty string): the two
query strings below agree on it for all four keys, yet the responses for
the same table differ. -/
theorem c9_counterexample :
    (∀ k ∈ ["tacId", "plantInspectionReportNumber", "testReportNumber", "packModel"],
      rawFirst "tacId=&tacId=ZZZ" k = rawFirst "tacId=" k) ∧
    handleReportsGET "tacId=&tacId=ZZZ" [{ tacId := some "hello" }] ≠
      handleReportsGET "tacId=" [{ tacId := some "hello" }] :=
  ⟨by decide, by decide⟩

/-- C9 (amended): the response of `GET /api/reports` depends on the query
string only through, for each of the four known keys, the first occurrence
with a non-empty value (absent, or present only with blank values, reads as
the empty string — `qsFirst`); extra unknown parameters and later
occurrences of a known key have no effect. -/
theorem c9_amended (qA qB : String) (t : List Report)
    (h1 : qsFirst qA "tacId" = qsFirst qB "tacId")
    (h2 : qsFirst qA "plantInspectionReportNumber" = qsFirst qB "plantInspectionReportNumber")
    (h3 : qsFirst qA "testReportNumber" = qsFirst qB "testReportNumber")
    (h4 : qsFirst qA "packModel" = qsFirst qB "packModel") :
    handleReportsGET qA t = handleReportsGET qB t := by
  unfold handleReportsGET filtersFromQS
  rw [h1, h2, h3, h4]

/-- Witness for C9 (amended): two query strings differing in unknown
parameters and in later occurrences of `tacId` yield the same response. -/
theorem c9_amended_witness :
    qsFirst "foo=1&tacId=X&tacId=Y" "tacId" = qsFirst "tacId=X&bar=2" "tacId" ∧
    handleReportsGET "foo=1&tacId=X&tacId=Y" [{ tacId := some "aXb" }] =
      handleReportsGET "tacId=X&bar=2" [{ tacId := some "aXb" }] :=
  ⟨by decide, c9_amended _ _ _ (by decide) (by decide) (by decide) (by decide)⟩
